import Mathlib

/-!
Verification of the pokevendmachines scripts (`lotlan.py`, `scrape.py`).

The Python code is shallowly embedded:
* records (Python dicts of the fixed shape) become the structure `LocationRecord`;
* the Nominatim HTTP interaction in `geocode_single_location` becomes a
  function over a response oracle `Nat → Response` (one response per loop
  attempt); the outbound request count and every `time.sleep` duration are
  collected in the returned `GeoOutcome`;
* numeric coordinate values are modelled as `Rat` (the `float(...)` conversion
  of the JSON strings is abstracted as the already-parsed numeric value);
* console printing is a side effect with no influence on control flow or data
  and is not modelled.
-/

/-- The nested `coordinates` dict: each of `lat`/`lng` is a number or `None`. -/
structure Coordinates where
  lat : Option Rat
  lng : Option Rat
  deriving Repr, DecidableEq

/-- One location dict: `{'name', 'machine_id', 'address', 'coordinates'}`. -/
structure LocationRecord where
  name : String
  machine_id : String
  address : String
  coordinates : Coordinates
  deriving Repr, DecidableEq

/-- One entry of the parsed Nominatim JSON body (`data[0]['lat']`,
`data[0]['lon']`), carried as the numeric values the `float` calls produce. -/
structure NominatimMatch where
  lat : Rat
  lon : Rat
  deriving Repr, DecidableEq

/-- Outcome of one `requests.get` call inside the retry loop:
either an HTTP response with a status code and parsed JSON body, or a
`requests.exceptions.RequestException` (timeout, connection failure). -/
inductive Response where
  | http (status : Nat) (body : List NominatimMatch)
  | netError
  deriving Repr, DecidableEq

/-- `max_retries = 3` in `geocode_single_location`. -/
def max_retries : Nat := 3

/-- `retry_delay = 2` (seconds) in `geocode_single_location`. -/
def retry_delay : Nat := 2

/-- Result of the retry loop: the final values written into
`coordinates['lat']`/`coordinates['lng']`, the number of outbound requests
issued, the durations of the `time.sleep` calls in order, and whether the
loop ended in the success branch (line 49 of `lotlan.py`). -/
structure GeoOutcome where
  lat : Option Rat
  lng : Option Rat
  requests : Nat
  sleeps : List Nat
  success : Bool
  deriving Repr, DecidableEq

/-- The `for attempt in range(max_retries)` loop of `geocode_single_location`,
as a recursion on the number of remaining iterations (`remaining` counts down
from `max_retries` while `attempt` counts up from 0).  Per iteration:
* HTTP 200 with a nonempty body: set both coordinates from the first match and
  return (success);
* HTTP 200 with an empty body: set both coordinates to `None` and return;
* HTTP 429: `time.sleep(retry_delay * (attempt + 1))`, `continue`;
* any other status: print only, fall through to the next iteration (no sleep);
* `RequestException`: if `attempt < max_retries - 1`, `time.sleep(retry_delay)`
  and `continue`, else fall through.
Falling out of the loop sets both coordinates to `None` (failure). -/
def geocodeGo (responses : Nat → Response) : Nat → Nat → GeoOutcome
  | _, 0 => { lat := none, lng := none, requests := 0, sleeps := [], success := false }
  | attempt, remaining + 1 =>
    match responses attempt with
    | .http status body =>
      if status = 200 then
        match body with
        | m :: _ =>
          { lat := some m.lat, lng := some m.lon, requests := 1, sleeps := [], success := true }
        | [] =>
          { lat := none, lng := none, requests := 1, sleeps := [], success := false }
      else if status = 429 then
        let rest := geocodeGo responses (attempt + 1) remaining
        { lat := rest.lat, lng := rest.lng, requests := rest.requests + 1,
          sleeps := retry_delay * (attempt + 1) :: rest.sleeps, success := rest.success }
      else
        let rest := geocodeGo responses (attempt + 1) remaining
        { lat := rest.lat, lng := rest.lng, requests := rest.requests + 1,
          sleeps := rest.sleeps, success := rest.success }
    | .netError =>
      let rest := geocodeGo responses (attempt + 1) remaining
      if attempt < max_retries - 1 then
        { lat := rest.lat, lng := rest.lng, requests := rest.requests + 1,
          sleeps := retry_delay :: rest.sleeps, success := rest.success }
      else
        { lat := rest.lat, lng := rest.lng, requests := rest.requests + 1,
          sleeps := rest.sleeps, success := rest.success }

/-- `geocode_single_location`: run the retry loop on a record and return the
record with its `coordinates` overwritten by the loop's result, together with
the observable trace (`GeoOutcome`). -/
def geocode_single_location (responses : Nat → Response) (r : LocationRecord) :
    LocationRecord × GeoOutcome :=
  let out := geocodeGo responses 0 max_retries
  ({ r with coordinates := { lat := out.lat, lng := out.lng } }, out)

/-- A Python value passed to (or returned by) `add_coordinates_nominatim`:
a single dict, a list of dicts, or anything else (the dynamic language allows
arbitrary values; `other` stands for any value that is neither a `dict` nor a
`list`, described by a string). -/
inductive PyValue where
  | dict (r : LocationRecord)
  | list (rs : List LocationRecord)
  | other (desc : String)
  deriving Repr, DecidableEq

/-- The `for i, location in enumerate(location_data, 1)` loop of
`add_coordinates_nominatim`: geocode each record in order, appending results.
The network oracle is indexed by record position and attempt.  The
inter-record `time.sleep(delay)` affects no returned data and is not part of
the output. -/
def geocodeList (responses : Nat → Nat → Response) : Nat → List LocationRecord →
    List LocationRecord
  | _, [] => []
  | i, r :: rs =>
    (geocode_single_location (responses i) r).1 :: geocodeList responses (i + 1) rs

/-- `add_coordinates_nominatim`: dispatch on the dynamic type of the input;
a dict is geocoded alone, a list element-wise; anything else raises
`ValueError("Input must be a dictionary or list of dictionaries")`, modelled
as `Except.error`. -/
def add_coordinates_nominatim (responses : Nat → Nat → Response) (delay : Nat)
    (location_data : PyValue) : Except String PyValue :=
  match location_data with
  | .dict r => .ok (.dict (geocode_single_location (responses 0) r).1)
  | .list rs =>
    let _ := delay
    .ok (.list (geocodeList responses 0 rs))
  | .other _ => .error "Input must be a dictionary or list of dictionaries"

/-- The identifying fields of a record — everything except the coordinates
that geocoding is allowed to change. -/
def recordKey (r : LocationRecord) : String × String × String :=
  (r.name, r.machine_id, r.address)
/-!
Persistence.  `json.dump` / `json.load` are the standard library; the file
content is modelled as the JSON value tree (`Json`), on which the two are
inverse for the shapes this program writes.  `save_results` (`lotlan.py`) and
`save_to_file` (`scrape.py`) both write `json.dump(data, f, indent=2)`;
`encodeRecord` is the tree such a record dict serialises to, and
`decodeRecord` reads the same fields back (`loc['name']`,
`loc['coordinates']['lat']`, ...). -/

/-- A JSON value. -/
inductive Json where
  | null
  | num (q : Rat)
  | str (s : String)
  | arr (xs : List Json)
  | obj (fields : List (String × Json))

/-- A coordinate field as stored: `None` becomes JSON `null`. -/
def encodeCoord : Option Rat → Json
  | none => .null
  | some q => .num q

/-- The JSON object a record dict serialises to, fields in insertion order. -/
def encodeRecord (r : LocationRecord) : Json :=
  .obj [("name", .str r.name), ("machine_id", .str r.machine_id),
        ("address", .str r.address),
        ("coordinates", .obj [("lat", encodeCoord r.coordinates.lat),
                              ("lng", encodeCoord r.coordinates.lng)])]

/-- `save_results(data, filename)` / `save_to_file(data, filename)`: the JSON
value written to the file for a list of records. -/
def save_results (rs : List LocationRecord) : Json :=
  .arr (rs.map encodeRecord)

/-- Reading a coordinate field back: `null` is `None`, a number is itself. -/
def decodeCoord : Json → Option (Option Rat)
  | .null => some none
  | .num q => some (some q)
  | _ => none

/-- Reading one record dict back from its JSON object. -/
def decodeRecord : Json → Option LocationRecord
  | .obj [("name", .str n), ("machine_id", .str m), ("address", .str a),
          ("coordinates", .obj [("lat", jlat), ("lng", jlng)])] =>
    match decodeCoord jlat, decodeCoord jlng with
    | some lat, some lng => some ⟨n, m, a, ⟨lat, lng⟩⟩
    | _, _ => none
  | _ => none

/-- Reading a whole record list back. -/
def decodeRecords : Json → Option (List LocationRecord)
  | .arr xs => decodeRecordSeq xs
  | _ => none
where
  decodeRecordSeq : List Json → Option (List LocationRecord)
    | [] => some []
    | j :: js =>
      match decodeRecord j, decodeRecordSeq js with
      | some r, some rs => some (r :: rs)
      | _, _ => none

/-- State of one path on disk: absent, present with parseable JSON content,
or present but not parseable as JSON. -/
inductive FileState where
  | missing
  | present (content : Json)
  | unparseable

/-- The Python exceptions the load paths can raise. -/
inductive PyError where
  | fileNotFound
  | jsonDecodeError
  deriving Repr, DecidableEq

/-- `load_from_file(filename)` (`lotlan.py`): `open` then `json.load`, no
`try` — `FileNotFoundError` and `json.JSONDecodeError` both propagate to the
caller as themselves. -/
def load_from_file (disk : String → FileState) (filename : String) : Except PyError Json :=
  match disk filename with
  | .missing => .error .fileNotFound
  | .unparseable => .error .jsonDecodeError
  | .present j => .ok j

/-- `load_existing_data(filename)` (`scrape.py`): both `except` clauses print
a message and `return None`, so the caller receives `None` whether the file
was missing or unparseable. -/
def load_existing_data (disk : String → FileState) (filename : String) : Option Json :=
  match disk filename with
  | .missing => none
  | .unparseable => none
  | .present j => some j

/-- Writing a file: the path now holds the given JSON content. -/
def writeFile (disk : String → FileState) (filename : String) (content : Json) :
    String → FileState :=
  fun fn => if fn = filename then .present content else disk fn

/-!
Extractor (`scrape.py`).  `parse_pipe_separated_data` runs
`re.findall(r'([A-Za-z\s&]+)\s*\|\s*([Q]\d+)\s*\|\s*([^|]+)\s*\|\s*([^|]+)', text)`
and filters/reshapes the matches.  The matcher below implements exactly this
pattern (with Python's greedy backtracking semantics specialised to it, and
`\s` restricted to the ASCII whitespace characters). -/

/-- Python `\s` on ASCII: space, tab, newline, carriage return, vertical tab,
form feed. -/
def isPySpace (c : Char) : Bool :=
  c = ' ' || c = '\t' || c = '\n' || c = '\r' || c = Char.ofNat 11 || c = Char.ofNat 12

/-- The character class `[A-Za-z\s&]` of the first capture group. -/
def isNameChar (c : Char) : Bool :=
  c.isAlpha || isPySpace c || c = '&'

/-- One `re.findall` match: the four capture groups. -/
structure PSMatch where
  retailer : List Char
  machine_id : List Char
  address : List Char
  city_state : List Char
  deriving Repr, DecidableEq

/-- The trailing `\s*([^|]+)` of the pattern, greedy with backtracking:
`\s*` first takes all whitespace; if what follows is a `|` or the end of the
input, `[^|]+` can still succeed by taking back the last whitespace character
(when there was one); otherwise it takes the maximal nonempty run of
non-`|` characters. -/
def matchG4 (l : List Char) : Option (List Char × List Char) :=
  let sp := l.takeWhile isPySpace
  let rest := l.dropWhile isPySpace
  match rest with
  | c :: _ =>
    if c = '|' then
      match sp.getLast? with
      | some d => some ([d], rest)
      | none => none
    else
      some (rest.takeWhile (fun x => x ≠ '|'), rest.dropWhile (fun x => x ≠ '|'))
  | [] =>
    match sp.getLast? with
    | some d => some ([d], ([] : List Char))
    | none => none

/-- Try the whole pattern at the current position.  Because `\s` is contained
in `[A-Za-z\s&]` and in `[^|]`, the greedy groups followed by `\s*\|` reduce
to: maximal run in the class, then the `|` must follow immediately. -/
def matchPSAt (l : List Char) : Option (PSMatch × List Char) :=
  let g1 := l.takeWhile isNameChar
  let r1 := l.dropWhile isNameChar
  if g1.isEmpty then none else
  match r1 with
  | '|' :: r2 =>
    match r2.dropWhile isPySpace with
    | 'Q' :: r4 =>
      let ds := r4.takeWhile Char.isDigit
      let r5 := r4.dropWhile Char.isDigit
      if ds.isEmpty then none else
      match r5.dropWhile isPySpace with
      | '|' :: r7 =>
        let g3 := r7.takeWhile (fun c => c ≠ '|')
        let r8 := r7.dropWhile (fun c => c ≠ '|')
        if g3.isEmpty then none else
        match r8 with
        | '|' :: r9 =>
          match matchG4 r9 with
          | some (g4, rest) => some (⟨g1, 'Q' :: ds, g3, g4⟩, rest)
          | none => none
        | _ => none
      | _ => none
    | _ => none
  | _ => none

/-- `re.findall`: scan left to right, non-overlapping leftmost matches,
resuming after each match (on failure, advance one character).  Every step
consumes at least one character, so fuel `length + 1` is never exhausted. -/
def reFindAll (fuel : Nat) (l : List Char) : List PSMatch :=
  match fuel, l with
  | 0, _ => []
  | _, [] => []
  | fuel + 1, l =>
    match matchPSAt l with
    | some (m, rest) => m :: reFindAll fuel rest
    | none => reFindAll fuel l.tail

/-- Python `str.strip()`: remove leading and trailing whitespace. -/
def pyStrip (s : String) : String :=
  ⟨((s.data.dropWhile isPySpace).reverse.dropWhile isPySpace).reverse⟩

/-- Python `str.lower()`, character-wise. -/
def pyLower (s : String) : String :=
  ⟨s.data.map Char.toLower⟩

/-- Python `str.startswith(pre)`. -/
def pyStartswith (s pre : String) : Bool :=
  pre.data.isPrefixOf s.data

/-- The per-match body of the loop in `parse_pipe_separated_data`: strip the
four groups, skip the match when the stripped name lowercases to
`'retailer'` or `'store'` or the stripped machine id does not start with
`'Q'`, otherwise emit the record with the concatenated address. -/
def processMatches : List PSMatch → List LocationRecord
  | [] => []
  | m :: ms =>
    let retailer := pyStrip ⟨m.retailer⟩
    let machine_id := pyStrip ⟨m.machine_id⟩
    let address := pyStrip ⟨m.address⟩
    let city_state := pyStrip ⟨m.city_state⟩
    if (pyLower retailer = "retailer" ∨ pyLower retailer = "store")
        ∨ pyStartswith machine_id "Q" = false then
      processMatches ms
    else
      { name := retailer, machine_id := machine_id,
        address := address ++ ", " ++ city_state,
        coordinates := ⟨none, none⟩ } :: processMatches ms

/-- `parse_pipe_separated_data(text)`. -/
def parse_pipe_separated_data (text : String) : List LocationRecord :=
  processMatches (reFindAll (text.length + 1) text.data)

/-- Input to the extractor, as the three ways the `try` body can go:
the soup contains a table (its rows, as lists of already-stripped cell
texts), it does not (and `get_text()` yields this text), or processing the
markup raises an exception. -/
inductive Markup where
  | table (rows : List (List String))
  | plaintext (s : String)
  | raising

/-- One table row: rows with fewer than 4 cells are skipped, otherwise the
first four cells become name, machine id, street address and city/state. -/
def rowToRecord : List String → Option LocationRecord
  | retailer :: machine_id :: address :: city_state :: _ =>
    some { name := retailer, machine_id := machine_id,
           address := address ++ ", " ++ city_state,
           coordinates := ⟨none, none⟩ }
  | _ => none

/-- `scrape_pokemon_vending_machines(html_content)`: table rows after the
header when a table exists, the pipe-separated fallback otherwise; any
exception is caught (`except Exception`) and `None` is returned. -/
def scrape_pokemon_vending_machines : Markup → Option (List LocationRecord)
  | .table rows => some ((rows.drop 1).filterMap rowToRecord)
  | .plaintext s => some (parse_pipe_separated_data s)
  | .raising => none


theorem geocode_single_location_key (responses : Nat → Response) (r : LocationRecord) :
    recordKey (geocode_single_location responses r).1 = recordKey r := rfl

theorem geocodeList_key (responses : Nat → Nat → Response) (i : Nat)
    (rs : List LocationRecord) :
    (geocodeList responses i rs).map recordKey = rs.map recordKey := by
  induction rs generalizing i with
  | nil => rfl
  | cons r rs ih => simp [geocodeList, geocode_single_location_key, ih]

/-- C1: a first response of HTTP 200 with zero matches ends the geocoder in
failure immediately: both coordinates are set to the null sentinel, exactly
one outbound request is made, and no sleep (hence no retry) happens. -/
theorem geocode_zero_matches_fails_once (responses : Nat → Response)
    (r : LocationRecord) (h : responses 0 = .http 200 []) :
    (geocode_single_location responses r).1.coordinates = ⟨none, none⟩ ∧
    (geocode_single_location responses r).2.requests = 1 ∧
    (geocode_single_location responses r).2.sleeps = [] ∧
    (geocode_single_location responses r).2.success = false := by
  simp [geocode_single_location, max_retries, geocodeGo, h]

/-- C1 witness. -/
theorem geocode_zero_matches_fails_once_witness :
    (geocode_single_location (fun _ => .http 200 []) ⟨"a", "b", "c", ⟨none, none⟩⟩).1.coordinates
        = ⟨none, none⟩ ∧
    (geocode_single_location (fun _ => .http 200 []) ⟨"a", "b", "c", ⟨none, none⟩⟩).2.requests
        = 1 ∧
    (geocode_single_location (fun _ => .http 200 []) ⟨"a", "b", "c", ⟨none, none⟩⟩).2.sleeps
        = [] ∧
    (geocode_single_location (fun _ => .http 200 []) ⟨"a", "b", "c", ⟨none, none⟩⟩).2.success
        = false :=
  geocode_zero_matches_fails_once (fun _ => .http 200 []) ⟨"a", "b", "c", ⟨none, none⟩⟩ rfl

/-- C2: responses 429, 429, then 200 with at least one match end the geocoder
in success after exactly 3 requests, with backoff sleeps
`retry_delay * (attempt + 1)`, i.e. 2 s then 4 s, and the coordinates taken
from the first match. -/
theorem geocode_429_429_200_succeeds (responses : Nat → Response)
    (r : LocationRecord) (b0 b1 : List NominatimMatch) (m : NominatimMatch)
    (ms : List NominatimMatch)
    (h0 : responses 0 = .http 429 b0) (h1 : responses 1 = .http 429 b1)
    (h2 : responses 2 = .http 200 (m :: ms)) :
    (geocode_single_location responses r).1.coordinates = ⟨some m.lat, some m.lon⟩ ∧
    (geocode_single_location responses r).2.requests = 3 ∧
    (geocode_single_location responses r).2.sleeps = [2, 4] ∧
    (geocode_single_location responses r).2.success = true := by
  simp [geocode_single_location, max_retries, geocodeGo, h0, h1, h2, retry_delay]

/-- C2 witness. -/
theorem geocode_429_429_200_succeeds_witness :
    (geocode_single_location
        (fun i => if i < 2 then .http 429 [] else .http 200 [⟨1, 2⟩])
        ⟨"a", "b", "c", ⟨none, none⟩⟩).1.coordinates = ⟨some 1, some 2⟩ ∧
    (geocode_single_location
        (fun i => if i < 2 then .http 429 [] else .http 200 [⟨1, 2⟩])
        ⟨"a", "b", "c", ⟨none, none⟩⟩).2.requests = 3 ∧
    (geocode_single_location
        (fun i => if i < 2 then .http 429 [] else .http 200 [⟨1, 2⟩])
        ⟨"a", "b", "c", ⟨none, none⟩⟩).2.sleeps = [2, 4] ∧
    (geocode_single_location
        (fun i => if i < 2 then .http 429 [] else .http 200 [⟨1, 2⟩])
        ⟨"a", "b", "c", ⟨none, none⟩⟩).2.success = true :=
  geocode_429_429_200_succeeds
    (fun i => if i < 2 then .http 429 [] else .http 200 [⟨1, 2⟩])
    ⟨"a", "b", "c", ⟨none, none⟩⟩ [] [] ⟨1, 2⟩ [] rfl rfl rfl

/-- C3: transport errors on all 3 attempts end the geocoder in failure with
both coordinates set to the null sentinel (3 requests, fixed 2 s sleeps after
the first two attempts only). -/
theorem geocode_all_net_errors_fails (responses : Nat → Response)
    (r : LocationRecord) (h0 : responses 0 = .netError)
    (h1 : responses 1 = .netError) (h2 : responses 2 = .netError) :
    (geocode_single_location responses r).1.coordinates = ⟨none, none⟩ ∧
    (geocode_single_location responses r).2.requests = 3 ∧
    (geocode_single_location responses r).2.sleeps = [2, 2] ∧
    (geocode_single_location responses r).2.success = false := by
  simp [geocode_single_location, max_retries, geocodeGo, h0, h1, h2, retry_delay]

/-- C3 witness. -/
theorem geocode_all_net_errors_fails_witness :
    (geocode_single_location (fun _ => .netError) ⟨"a", "b", "c", ⟨none, none⟩⟩).1.coordinates
        = ⟨none, none⟩ ∧
    (geocode_single_location (fun _ => .netError) ⟨"a", "b", "c", ⟨none, none⟩⟩).2.requests
        = 3 ∧
    (geocode_single_location (fun _ => .netError) ⟨"a", "b", "c", ⟨none, none⟩⟩).2.sleeps
        = [2, 2] ∧
    (geocode_single_location (fun _ => .netError) ⟨"a", "b", "c", ⟨none, none⟩⟩).2.success
        = false :=
  geocode_all_net_errors_fails (fun _ => .netError) ⟨"a", "b", "c", ⟨none, none⟩⟩ rfl rfl rfl

/-- C4: statuses that are neither 200 nor 429 on every attempt cause no sleep
at all; all 3 attempts are consumed and the record ends in failure with
null-sentinel coordinates. -/
theorem geocode_other_status_no_sleep (responses : Nat → Response)
    (r : LocationRecord) (c0 c1 c2 : Nat) (b0 b1 b2 : List NominatimMatch)
    (h0 : responses 0 = .http c0 b0) (h1 : responses 1 = .http c1 b1)
    (h2 : responses 2 = .http c2 b2)
    (n0 : c0 ≠ 200) (n0' : c0 ≠ 429) (n1 : c1 ≠ 200) (n1' : c1 ≠ 429)
    (n2 : c2 ≠ 200) (n2' : c2 ≠ 429) :
    (geocode_single_location responses r).1.coordinates = ⟨none, none⟩ ∧
    (geocode_single_location responses r).2.requests = 3 ∧
    (geocode_single_location responses r).2.sleeps = [] ∧
    (geocode_single_location responses r).2.success = false := by
  simp [geocode_single_location, max_retries, geocodeGo, h0, h1, h2,
    n0, n0', n1, n1', n2, n2']

/-- C4 witness. -/
theorem geocode_other_status_no_sleep_witness :
    (geocode_single_location (fun _ => .http 500 []) ⟨"a", "b", "c", ⟨none, none⟩⟩).1.coordinates
        = ⟨none, none⟩ ∧
    (geocode_single_location (fun _ => .http 500 []) ⟨"a", "b", "c", ⟨none, none⟩⟩).2.requests
        = 3 ∧
    (geocode_single_location (fun _ => .http 500 []) ⟨"a", "b", "c", ⟨none, none⟩⟩).2.sleeps
        = [] ∧
    (geocode_single_location (fun _ => .http 500 []) ⟨"a", "b", "c", ⟨none, none⟩⟩).2.success
        = false :=
  geocode_other_status_no_sleep (fun _ => .http 500 []) ⟨"a", "b", "c", ⟨none, none⟩⟩
    500 500 500 [] [] [] rfl rfl rfl
    (by decide) (by decide) (by decide) (by decide) (by decide) (by decide)

/-- C6: on a list input, `add_coordinates_nominatim` returns a list of the
same length with the records in the same order: the identifying fields
(name, machine id, address) of the output, position by position, are exactly
those of the input. -/
theorem add_coordinates_preserves_order (responses : Nat → Nat → Response)
    (delay : Nat) (rs : List LocationRecord) :
    ∃ out : List LocationRecord,
      add_coordinates_nominatim responses delay (.list rs) = .ok (.list out) ∧
      out.length = rs.length ∧
      out.map recordKey = rs.map recordKey := by
  refine ⟨geocodeList responses 0 rs, rfl, ?_, geocodeList_key responses 0 rs⟩
  have h := congrArg List.length (geocodeList_key responses 0 rs)
  simpa using h

/-- C10: any input that is neither a dict nor a list of dicts makes
`add_coordinates_nominatim` raise `ValueError` instead of returning a
result. -/
theorem add_coordinates_rejects_other (responses : Nat → Nat → Response)
    (delay : Nat) (desc : String) :
    add_coordinates_nominatim responses delay (.other desc)
      = .error "Input must be a dictionary or list of dictionaries" := rfl

theorem decodeRecord_encodeRecord (r : LocationRecord) :
    decodeRecord (encodeRecord r) = some r := by
  obtain ⟨n, m, a, lat, lng⟩ := r
  cases lat <;> cases lng <;> rfl

theorem decodeRecords_save_results (rs : List LocationRecord) :
    decodeRecords (save_results rs) = some rs := by
  show decodeRecords.decodeRecordSeq (rs.map encodeRecord) = some rs
  induction rs with
  | nil => rfl
  | cons r rs ih =>
    simp [List.map, decodeRecords.decodeRecordSeq, decodeRecord_encodeRecord, ih]

/-- C5: saving a record sequence to the JSON file and loading it back yields
the identical sequence, field for field, null coordinates included. -/
theorem save_load_roundtrip (disk : String → FileState) (filename : String)
    (rs : List LocationRecord) :
    (load_from_file (writeFile disk filename (save_results rs)) filename).map decodeRecords
      = .ok (some rs) := by
  simp [load_from_file, writeFile, Except.map, decodeRecords_save_results]

/-- C9 counterexample: `load_existing_data` returns the same value (`None`)
for a missing file and for a present-but-unparseable file, so its caller
cannot tell the two conditions apart — against the claim that every load
operation yields distinguishable results. -/
theorem load_existing_data_not_distinct :
    load_existing_data (fun _ => .missing) "pokemon_vending_machines.json"
      = load_existing_data (fun _ => .unparseable) "pokemon_vending_machines.json" ∧
    load_existing_data (fun _ => .missing) "pokemon_vending_machines.json" = none := by
  exact ⟨rfl, rfl⟩

/-- C9 amended: `load_from_file` (`lotlan.py`) propagates a distinct
file-not-found error, distinguishable from a parse error; `load_existing_data`
(`scrape.py`) does not — it returns `None` in both cases, the distinction
surviving only in the printed message. -/
theorem load_distinct_amended (disk1 disk2 : String → FileState) (fn : String)
    (h1 : disk1 fn = .missing) (h2 : disk2 fn = .unparseable) :
    load_from_file disk1 fn = .error .fileNotFound ∧
    load_from_file disk2 fn = .error .jsonDecodeError ∧
    load_from_file disk1 fn ≠ load_from_file disk2 fn ∧
    load_existing_data disk1 fn = load_existing_data disk2 fn := by
  refine ⟨?_, ?_, ?_, ?_⟩ <;> simp [load_from_file, load_existing_data, h1, h2]

theorem processMatches_excluded (ms : List PSMatch) (rec : LocationRecord)
    (h : rec ∈ processMatches ms) :
    pyLower rec.name ≠ "retailer" ∧ pyLower rec.name ≠ "store" ∧
    pyStartswith rec.machine_id "Q" = true := by
  induction ms with
  | nil => simp [processMatches] at h
  | cons m ms ih =>
    simp only [processMatches] at h
    revert h
    split
    · intro h
      exact ih h
    · next hcond =>
      intro h
      push_neg at hcond
      rcases List.mem_cons.mp h with h | h
      · subst h
        exact ⟨hcond.1.1, hcond.1.2, by simpa using hcond.2⟩
      · exact ih h

/-- C8: no record produced by the pipe-separated fallback has a name that
case-insensitively equals "retailer" or "store", and every produced record's
machine id starts with "Q". -/
theorem parse_pipe_excludes (text : String) (rec : LocationRecord)
    (h : rec ∈ parse_pipe_separated_data text) :
    pyLower rec.name ≠ "retailer" ∧ pyLower rec.name ≠ "store" ∧
    pyStartswith rec.machine_id "Q" = true :=
  processMatches_excluded _ rec h

/-- C8 witness. -/
theorem parse_pipe_excludes_witness :
    (⟨"A", "Q1", "b, c", ⟨none, none⟩⟩ : LocationRecord)
        ∈ parse_pipe_separated_data "A|Q1|b|c" ∧
    (pyLower "A" ≠ "retailer" ∧ pyLower "A" ≠ "store" ∧
      pyStartswith "Q1" "Q" = true) := by
  have hmem : (⟨"A", "Q1", "b, c", ⟨none, none⟩⟩ : LocationRecord)
      ∈ parse_pipe_separated_data "A|Q1|b|c" := by decide
  exact ⟨hmem, parse_pipe_excludes "A|Q1|b|c" _ hmem⟩

/-- C7 counterexample: on markup whose processing raises, the extractor
returns `None`, which is not the empty record list — so the claim that it
"returns an empty result" (an empty record sequence) fails; only the
"does not propagate" half holds. -/
theorem scrape_error_returns_none :
    scrape_pokemon_vending_machines .raising = none ∧
    scrape_pokemon_vending_machines .raising ≠ some [] := by
  constructor
  · rfl
  · simp [scrape_pokemon_vending_machines]

/-- C7 amended: the extractor catches any error raised while processing the
markup and returns the null result `None` — not an empty record list, and not
the raw error — and returns `None` only in that case. -/
theorem scrape_catches_errors (m : Markup) :
    scrape_pokemon_vending_machines m = none ↔ m = .raising := by
  cases m <;> simp [scrape_pokemon_vending_machines]

/-- C9 amended witness. -/
theorem load_distinct_amended_witness :
    load_from_file (fun _ => .missing) "f.json" = .error .fileNotFound ∧
    load_from_file (fun _ => .unparseable) "f.json" = .error .jsonDecodeError ∧
    load_from_file (fun _ => .missing) "f.json" ≠ load_from_file (fun _ => .unparseable) "f.json" ∧
    load_existing_data (fun _ => .missing) "f.json"
      = load_existing_data (fun _ => .unparseable) "f.json" :=
  load_distinct_amended (fun _ => .missing) (fun _ => .unparseable) "f.json" rfl rfl
